import Mathlib

/-!
Verification of the paper-slack-bot search-and-ranking core.

This file gives a shallow embedding, in Lean 4, of the parts of the
repository `paper-slack-bot` that the specification's claims talk about:

* `BooleanQueryParser.parse` / `BooleanQueryParser.matches`
  (src/paper_slack_bot/search/search_engine.py),
* `JournalFilter` (src/paper_slack_bot/search/journal_filter.py) together
  with `JournalConfig` (src/paper_slack_bot/config.py),
* `LLMFilter._parse_response`, `LLMFilter._parse_batch_response`,
  `LLMFilter._score_batch` and `LLMFilter.score_papers`
  (src/paper_slack_bot/filtering/llm_filter.py),
* `Database.save_paper` / `save_papers` / `paper_exists`
  (src/paper_slack_bot/storage/database.py),
* `SearchEngine.search` and `SearchEngine._save_search_history`
  (src/paper_slack_bot/search/search_engine.py).

Python strings are modelled as `List Char` (named `Str` below); the
string helpers (`lower`, `upper`, `split`, `strip`, substring search,
slicing) are modelled char-exactly for the ASCII inputs that occur in
the repository.  Where the Python code calls into the standard library
(`json.loads`, `re` patterns, `float`), the library function is modelled
by an executable Lean function whose behaviour agrees with the library
on the inputs relevant to the claims; each such model carries a doc
comment saying what it models and which fragment it covers.
-/

/-- Python strings, modelled as lists of characters. -/
abbrev Str := List Char

deriving instance DecidableEq for Except

/-- Named characters for symbols that are awkward as literals. -/
def quoteC : Char := Char.ofNat 34

/-- The `\x7b` left-brace character. -/
def lbraceC : Char := Char.ofNat 123

/-- The `\x7d` right-brace character. -/
def rbraceC : Char := Char.ofNat 125

/-- The left-bracket character. -/
def lbracketC : Char := Char.ofNat 91

/-- The right-bracket character. -/
def rbracketC : Char := Char.ofNat 93

/-- The backslash character. -/
def backslashC : Char := Char.ofNat 92

/-- The forward-slash character. -/
def slashC : Char := Char.ofNat 47

/-- The colon character. -/
def colonC : Char := Char.ofNat 58

/-- The full-stop character. -/
def dotC : Char := Char.ofNat 46

/-- The right-parenthesis character. -/
def rparenC : Char := Char.ofNat 41

/-- The newline character. -/
def newlineC : Char := Char.ofNat 10

/-- The backtick character (used by the markdown fence model). -/
def fenceC : Char := Char.ofNat 96

/-- Model of Python's whitespace class `\s` (space, tab, newline,
carriage return, form feed, vertical tab). -/
def pyIsSpace (c : Char) : Bool :=
  c = Char.ofNat 32 || c = Char.ofNat 9 || c = Char.ofNat 10 ||
  c = Char.ofNat 13 || c = Char.ofNat 12 || c = Char.ofNat 11

/-- Model of Python `str.lower()` (exact on ASCII). -/
def pyLower (s : Str) : Str := s.map Char.toLower

/-- Model of Python `str.upper()` (exact on ASCII). -/
def pyUpper (s : Str) : Str := s.map Char.toUpper

/-- Model of Python `str.strip()`: drop whitespace from both ends. -/
def pyStrip (s : Str) : Str :=
  ((s.dropWhile pyIsSpace).reverse.dropWhile pyIsSpace).reverse

/-- Model of Python `str.split()` with no argument: split on runs of
whitespace, discarding empty pieces. -/
def pySplit (s : Str) : List Str :=
  (s.splitOnP pyIsSpace).filter (fun t => !t.isEmpty)

/-- `strContains hay needle` models Python's `needle in hay` substring
test. -/
def strContains (hay needle : Str) : Bool :=
  if needle.isPrefixOf hay then true
  else
    match hay with
    | [] => false
    | _ :: t => strContains t needle

/-- `pyIn needle hay` is Python's `needle in hay`. -/
def pyIn (needle hay : Str) : Bool := strContains hay needle

/-- Model of Python `str.find(c)` for a single character: index of the
leftmost occurrence, `none` for Python's `-1`. -/
def pyFindChar (s : Str) (c : Char) : Option Nat :=
  s.findIdx? (fun x => x == c)

/-- Model of Python `str.rfind(c)` for a single character: index of the
rightmost occurrence, `none` for Python's `-1`. -/
def pyRFindChar (s : Str) (c : Char) : Option Nat :=
  match s.reverse.findIdx? (fun x => x == c) with
  | some i => some (s.length - 1 - i)
  | none => none

/-- Model of the Python slice `s[a:b]` (with `0 ≤ a ≤ b`). -/
def sliceStr (s : Str) (a b : Nat) : Str := (s.drop a).take (b - a)

/-- Index of the leftmost occurrence of `needle` as a substring of
`hay` (model of `str.find(needle)` for a multi-character needle). -/
def findSub (hay needle : Str) : Option Nat :=
  if needle.isPrefixOf hay then some 0
  else
    match hay with
    | [] => none
    | _ :: t => (findSub t needle).map (· + 1)

/-!
## BooleanQueryParser (search_engine.py, lines 30-153)

`parse` first extracts quoted phrases with the regex `"([^"]+)"` and
replaces each occurrence with `" PHRASE "`; the remainder is upper-cased
and split on whitespace, and a single left-to-right pass with a
"negate next term" flag and an "inside OR chain" flag distributes the
terms over the `must` / `should` / `must_not` sets.
-/

namespace BooleanQueryParser

/-- One step of the quoted-phrase pass: scanning for the regex
`"([^"]+)"` left to right (non-overlapping, as `re.findall`/`re.sub`
do), returning the extracted phrases together with the text in which
each match has been replaced by `" PHRASE "`.  The fuel argument is an
upper bound on the number of characters still to scan. -/
def extractQuotesAux : Nat → Str → (List Str × Str)
  | 0, s => ([], s)
  | _ + 1, [] => ([], [])
  | fuel + 1, c :: rest =>
    if c = quoteC then
      let run := rest.takeWhile (fun x => x ≠ quoteC)
      match rest.dropWhile (fun x => x ≠ quoteC) with
      | _ :: rest2 =>
        if run.isEmpty then
          -- `""`: the pattern needs at least one inner character, so the
          -- regex engine fails here and advances one position.
          let p := extractQuotesAux fuel rest
          (p.1, c :: p.2)
        else
          let p := extractQuotesAux fuel rest2
          (run :: p.1, (" PHRASE ").toList ++ p.2)
      | [] =>
        -- unmatched quote: no further match can start in the remainder.
        ([], c :: rest)
    else
      let p := extractQuotesAux fuel rest
      (p.1, c :: p.2)

/-- Quoted-phrase extraction and substitution, as in `parse` lines
47-48. -/
def extractQuotes (s : Str) : List Str × Str :=
  extractQuotesAux (s.length + 1) s

/-- The token list fed to the parsing loop (`parse` line 51). -/
def tokensOf (q : Str) : List Str := pySplit (pyUpper (extractQuotes q).2)

/-- The quoted phrases of a query, in order of appearance. -/
def phrasesOf (q : Str) : List Str := (extractQuotes q).1

/-- The structured predicate produced by `parse`. -/
structure ParsedQuery where
  must : List Str
  should : List Str
  mustNot : List Str
deriving DecidableEq

/-- The local state of the parsing loop (`parse` lines 60-63). -/
structure PQState where
  must : List Str
  should : List Str
  mustNot : List Str
  orTerms : List Str
  nextIsNot : Bool
  inOrChain : Bool
deriving DecidableEq

/-- Routing of one term according to the pending flags (`parse` lines
86-101; identical for phrase tokens and plain tokens). -/
def addTerm (st : PQState) (term : Str) : PQState :=
  if st.nextIsNot then
    { st with mustNot := st.mustNot ++ [term], nextIsNot := false }
  else if st.inOrChain then
    { st with orTerms := st.orTerms ++ [term] }
  else
    { st with must := st.must ++ [term] }

/-- The `NOT` operator token. -/
def notTok : Str := ("NOT").toList

/-- The `OR` operator token. -/
def orTok : Str := ("OR").toList

/-- The `AND` operator token. -/
def andTok : Str := ("AND").toList

/-- The placeholder token produced by quoted-phrase substitution. -/
def phraseTok : Str := ("PHRASE").toList

/-- The left-to-right parsing loop of `parse` (lines 65-108), with the
final flush of pending OR terms into `should` (lines 106-107). -/
def parseLoop : List Str → List Str → PQState → ParsedQuery
  | [], _, st => ⟨st.must, st.should ++ st.orTerms, st.mustNot⟩
  | tok :: ts, phrases, st =>
    if tok = notTok then
      parseLoop ts phrases { st with nextIsNot := true }
    else if tok = orTok then
      let st1 := { st with inOrChain := true }
      let st2 :=
        if !st1.must.isEmpty && st1.orTerms.isEmpty then
          { st1 with must := st1.must.dropLast,
                     orTerms := st1.orTerms ++ [st1.must.getLastD []] }
        else st1
      parseLoop ts phrases st2
    else if tok = andTok then
      let st1 :=
        if !st.orTerms.isEmpty then
          { st with should := st.should ++ st.orTerms, orTerms := [] }
        else st
      parseLoop ts phrases { st1 with inOrChain := false }
    else if tok = phraseTok then
      match phrases with
      | [] => parseLoop ts [] st
      | p :: ps => parseLoop ts ps (addTerm st (pyLower p))
    else
      parseLoop ts phrases (addTerm st (pyLower tok))

/-- `BooleanQueryParser.parse` (search_engine.py lines 37-109). -/
def parse (q : Str) : ParsedQuery :=
  parseLoop (tokensOf q) (phrasesOf q) ⟨[], [], [], [], false, false⟩

/-- `BooleanQueryParser.matches` (search_engine.py lines 126-153):
the text is lower-cased; any `must_not` hit fails; any missing `must`
term fails; with `should` non-empty and `must` empty, no `should` hit
fails; otherwise the text matches. -/
def pqMatches (pq : ParsedQuery) (text : Str) : Bool :=
  let textLower := pyLower text
  if pq.mustNot.any (fun t => pyIn t textLower) then false
  else if pq.must.any (fun t => !pyIn t textLower) then false
  else if (!pq.should.isEmpty && pq.must.isEmpty) &&
          !pq.should.any (fun t => pyIn t textLower) then false
  else true

/-- Is a token one of the three operator keywords? -/
def isOpTok (t : Str) : Bool := t = andTok || t = orTok || t = notTok

end BooleanQueryParser

/-!
## Paper data model (storage/database.py, lines 12-44)

The `Paper` dataclass.  Scores are modelled as integers: every score
that arises in the verified code paths is integral, and Python `float`
arithmetic on such values is exact.
-/

/-- The `Paper` dataclass (database.py lines 12-27). -/
structure Paper where
  title : Str
  authors : List Str
  abstract : Str
  doi : Option Str
  journal : Str
  publicationDate : Str
  url : Str
  source : Str
  relevanceScore : Option Int := none
  relevanceExplanation : Option Str := none
deriving DecidableEq

/-!
## JournalFilter (journal_filter.py) and JournalConfig (config.py)
-/

namespace JournalFilter

/-- `JOURNAL_TIERS` (journal_filter.py lines 14-49), in source order. -/
def JOURNAL_TIERS : List (Str × List Str) :=
  [ (("tier1").toList,
     [ ("Nature").toList, ("Science").toList, ("Cell").toList,
       ("The New England Journal of Medicine").toList, ("NEJM").toList,
       ("Lancet").toList, ("The Lancet").toList ]),
    (("tier2").toList,
     [ ("Nature Methods").toList, ("Nature Communications").toList,
       ("PNAS").toList,
       ("Proceedings of the National Academy of Sciences").toList,
       ("eLife").toList, ("Nature Biotechnology").toList,
       ("Nature Genetics").toList, ("Nature Medicine").toList,
       ("Nature Reviews").toList ]),
    (("ml").toList,
     [ ("NeurIPS").toList, ("ICML").toList, ("ICLR").toList,
       ("Nature Machine Intelligence").toList,
       ("Journal of Machine Learning Research").toList,
       ("JMLR").toList,
       ("Advances in Neural Information Processing Systems").toList ]),
    (("preprints").toList,
     [ ("bioRxiv").toList, ("arXiv").toList, ("medRxiv").toList ]) ]

/-- `JOURNAL_ALIASES` (journal_filter.py lines 52-64). -/
def JOURNAL_ALIASES : List (Str × Str) :=
  [ (("nejm").toList, ("The New England Journal of Medicine").toList),
    (("new england journal of medicine").toList,
     ("The New England Journal of Medicine").toList),
    (("pnas").toList,
     ("Proceedings of the National Academy of Sciences").toList),
    (("proc natl acad sci").toList,
     ("Proceedings of the National Academy of Sciences").toList),
    (("jmlr").toList, ("Journal of Machine Learning Research").toList),
    (("nat methods").toList, ("Nature Methods").toList),
    (("nat commun").toList, ("Nature Communications").toList),
    (("nat biotechnol").toList, ("Nature Biotechnology").toList),
    (("nat genet").toList, ("Nature Genetics").toList),
    (("nat med").toList, ("Nature Medicine").toList),
    (("nat mach intell").toList, ("Nature Machine Intelligence").toList) ]

/-- `JournalConfig` (config.py lines 31-38): the user-facing filtering
configuration with its dataclass defaults. -/
structure JournalConfig where
  includeList : List Str := []
  excludeList : List Str := []
  tiers : List Str := []
  showPreprints : Bool := true
deriving DecidableEq

/-- The default `JournalConfig()`. -/
def defaultJournalConfig : JournalConfig := {}

/-- `normalize_journal_name` (journal_filter.py lines 105-121):
lower-case and strip, look up the alias table, otherwise return the
stripped original. -/
def normalizeJournalName (name : Str) : Str :=
  let nameLower := pyLower (pyStrip name)
  match JOURNAL_ALIASES.find? (fun kv => kv.1 == nameLower) with
  | some kv => kv.2
  | none => pyStrip name

/-- The `_tier_lookup` mapping (journal_filter.py lines 98-103): the
lower-cased journal name of each tier entry mapped to its tier.  The
table's keys are pairwise distinct, so first-match lookup agrees with
the Python dict built by insertion. -/
def tierLookup (j : Str) : Option Str :=
  (JOURNAL_TIERS.flatMap (fun tj => tj.2.map (fun n => (pyLower n, tj.1)))).find?
      (fun kv => kv.1 == j) |>.map (fun kv => kv.2)

/-- `get_journal_tier` (journal_filter.py lines 123-144): direct
lower-cased lookup, then permissive substring matching in either
direction against every tier list, in source order. -/
def getJournalTier (journal : Str) : Option Str :=
  let journalLower := pyLower journal
  match tierLookup journalLower with
  | some t => some t
  | none =>
    (JOURNAL_TIERS.find? (fun tj =>
        tj.2.any (fun j =>
          pyIn (pyLower j) journalLower || pyIn journalLower (pyLower j)))).map
      (fun tj => tj.1)

/-- `_matches_any` (journal_filter.py lines 252-271): exact membership,
then substring containment in either direction. -/
def matchesAny (journal : Str) (journalSet : List Str) : Bool :=
  if journalSet.any (fun j => j == journal) then true
  else journalSet.any (fun j => pyIn j journal || pyIn journal j)

/-- Python truthiness of `x or y` for an optional list argument:
`None` and `[]` fall back to the default. -/
def orDefault (arg : Option (List Str)) (dflt : List Str) : List Str :=
  match arg with
  | some (a :: rest) => a :: rest
  | _ => dflt

/-- `filter_papers` (journal_filter.py lines 178-250).  The allowed set
is seeded from the requested tiers, the include list, and — whenever
`show_preprints` is true — the preprint servers; a paper is dropped if
it matches the exclude set, kept unconditionally if the allowed set is
empty, and otherwise kept only when it matches the allowed set. -/
def filterPapers (config : JournalConfig) (papers : List Paper)
    (includeJournals excludeJournals : Option (List Str))
    (tiers : Option (List Str)) (showPreprints : Bool) : List Paper :=
  if papers.isEmpty then []
  else
    let includeJ := orDefault includeJournals config.includeList
    let excludeJ := orDefault excludeJournals config.excludeList
    let tiersL := orDefault tiers config.tiers
    let allowed0 : List Str :=
      tiersL.flatMap (fun tier =>
        match JOURNAL_TIERS.find? (fun tj => tj.1 == pyLower tier) with
        | some tj => tj.2.map pyLower
        | none => [])
    let allowed1 := allowed0 ++ includeJ.map pyLower
    let allowed :=
      if showPreprints then
        allowed1 ++
          (match JOURNAL_TIERS.find? (fun tj => tj.1 == ("preprints").toList) with
           | some tj => tj.2.map pyLower
           | none => [])
      else allowed1
    let excluded := excludeJ.map pyLower
    papers.filter (fun paper =>
      let journalLower := pyLower paper.journal
      if matchesAny journalLower excluded then false
      else if allowed.isEmpty then true
      else matchesAny journalLower allowed)

end JournalFilter

/-!
## Database (storage/database.py)

The persisted state is modelled as the list of stored rows together
with the next AUTOINCREMENT id (SQLite assigns ids 1, 2, ...).  Only
the operations the claims need are embedded.
-/

namespace Database

/-- The papers table: stored rows with their integer primary keys, and
the next id the AUTOINCREMENT column will assign. -/
structure DBState where
  rows : List (Nat × Paper)
  nextId : Nat
deriving DecidableEq

/-- A freshly initialised database (ids start at 1). -/
def dbInit : DBState := ⟨[], 1⟩

/-- Python truthiness of `paper.doi` (line 167): a present, non-empty
string. -/
def doiTruthy (d : Option Str) : Option Str :=
  match d with
  | some (c :: rest) => some (c :: rest)
  | _ => none

/-- `Database.save_paper` (database.py lines 154-194): if the paper has
a truthy DOI and a row with that DOI exists, return the existing row's
id; otherwise insert the paper — with no check of the title — and
return the fresh id.  Returns the updated state and the returned id. -/
def savePaper (db : DBState) (paper : Paper) : DBState × Nat :=
  match doiTruthy paper.doi with
  | some d =>
    match db.rows.find? (fun r => r.2.doi == some d) with
    | some r => (db, r.1)
    | none => (⟨db.rows ++ [(db.nextId, paper)], db.nextId + 1⟩, db.nextId)
  | none => (⟨db.rows ++ [(db.nextId, paper)], db.nextId + 1⟩, db.nextId)

/-- `Database.save_papers` (database.py lines 196-205): save each paper
in order, collecting the returned ids. -/
def savePapers (db : DBState) (papers : List Paper) : DBState × List Nat :=
  match papers with
  | [] => (db, [])
  | p :: ps =>
    let r := savePaper db p
    let rest := savePapers r.1 ps
    (rest.1, r.2 :: rest.2)

/-- `Database.paper_exists` (database.py lines 224-236): is some stored
row's DOI equal to the given string? -/
def paperExists (db : DBState) (doi : Str) : Bool :=
  db.rows.any (fun r => r.2.doi == some doi)

end Database

/-!
## SearchEngine (search_engine.py, lines 250-449)

`SearchEngine.search` parses the query, keeps the papers whose
`title + " " + abstract` matches, applies the optional `SearchFilters`,
optionally re-ranks through the semantic-search collaborator, and
finally records the query to history inside a `try`/`except` that
swallows every storage failure.  The semantic collaborator
(`SemanticSearch.search` composed with dropping the scores) and the
history store (`Database.save_search_query`) are external capabilities
and enter the embedding as function parameters; a failing store is a
parameter returning `Except.error`.
-/

namespace SearchEngine

/-- `SearchFilters` (search_engine.py lines 15-27). -/
structure SearchFilters where
  authors : Option (List Str) := none
  dateFrom : Option Str := none
  dateTo : Option Str := none
  titleKeywords : Option (List Str) := none
  abstractKeywords : Option (List Str) := none
  excludeTerms : Option (List Str) := none
  journals : Option (List Str) := none
  sources : Option (List Str) := none
  minRelevanceScore : Option Int := none
deriving DecidableEq

/-- Lexicographic string comparison `a <= b` on code points, modelling
Python's `str` ordering (used for the publication-date range checks). -/
def strLe : Str → Str → Bool
  | [], _ => true
  | _ :: _, [] => false
  | a :: as, b :: bs =>
    if a.val < b.val then true
    else if b.val < a.val then false
    else strLe as bs

/-- Python truthiness for an optional list filter field: `None` and the
empty list impose no constraint. -/
def listTruthy (o : Option (List Str)) : Option (List Str) :=
  match o with
  | some (a :: rest) => some (a :: rest)
  | _ => none

/-- Python truthiness for an optional string filter field: `None` and
the empty string impose no constraint. -/
def strTruthy (o : Option Str) : Option Str :=
  match o with
  | some (c :: rest) => some (c :: rest)
  | _ => none

/-- `SearchEngine._apply_filters` (search_engine.py lines 311-396): each
truthy field narrows the list further. -/
def applyFilters (papers : List Paper) (f : SearchFilters) : List Paper :=
  let l1 :=
    match listTruthy f.authors with
    | some la =>
      let authorsLower := la.map pyLower
      papers.filter (fun p =>
        authorsLower.any (fun author =>
          p.authors.any (fun a => pyIn (pyLower author) (pyLower a))))
    | none => papers
  let l2 :=
    match strTruthy f.dateFrom with
    | some d => l1.filter (fun p => strLe d p.publicationDate)
    | none => l1
  let l3 :=
    match strTruthy f.dateTo with
    | some d => l2.filter (fun p => strLe p.publicationDate d)
    | none => l2
  let l4 :=
    match listTruthy f.titleKeywords with
    | some kws => l3.filter (fun p =>
        kws.any (fun kw => pyIn (pyLower kw) (pyLower p.title)))
    | none => l3
  let l5 :=
    match listTruthy f.abstractKeywords with
    | some kws => l4.filter (fun p =>
        kws.any (fun kw => pyIn (pyLower kw) (pyLower p.abstract)))
    | none => l4
  let l6 :=
    match listTruthy f.excludeTerms with
    | some terms => l5.filter (fun p =>
        !terms.any (fun t =>
          pyIn (pyLower t) (pyLower (p.title ++ [' '] ++ p.abstract))))
    | none => l5
  let l7 :=
    match listTruthy f.journals with
    | some js =>
      let journalsLower := js.map pyLower
      l6.filter (fun p => journalsLower.any (fun j => j == pyLower p.journal))
    | none => l6
  let l8 :=
    match listTruthy f.sources with
    | some ss =>
      let sourcesLower := ss.map pyLower
      l7.filter (fun p => sourcesLower.any (fun s => s == pyLower p.source))
    | none => l7
  match f.minRelevanceScore with
  | some m => l8.filter (fun p =>
      match p.relevanceScore with
      | some s => m ≤ s
      | none => false)
  | none => l8

/-- The `SearchQuery` history record (database.py lines 47-56), with
the filter dict of `_save_search_history` modelled by the optional
`SearchFilters` value it serialises. -/
structure SearchQueryRec where
  query : Str
  filters : Option SearchFilters
  resultCount : Nat
  userId : Option Str
deriving DecidableEq

/-- The observable outcome of one `SearchEngine.search` call: the
returned papers, the history record passed to the store (if the call
reached that point), and whether the store accepted it. -/
structure SearchOutcome where
  results : List Paper
  attempted : Option SearchQueryRec
  saved : Bool

/-- Steps 1-3 of `SearchEngine.search` (search_engine.py lines
287-304): boolean-query filtering on `title + " " + abstract`, the
optional `SearchFilters`, and the optional semantic re-ranking.  `sem`
is the semantic-search collaborator — `SemanticSearch.search` composed
with dropping the scores — and is `none` when the engine was built
with `use_semantic=False`. -/
def searchResults (sem : Option (Str → List Paper → List Paper))
    (query : Str) (papers : List Paper) (filters : Option SearchFilters)
    (useSemantic : Bool) : List Paper :=
  let pq := BooleanQueryParser.parse query
  let f1 := papers.filter (fun p =>
    BooleanQueryParser.pqMatches pq (p.title ++ [' '] ++ p.abstract))
  let f2 :=
    match filters with
    | some f => applyFilters f1 f
    | none => f1
  if useSemantic then
    match sem with
    | some rank => if f2.isEmpty then f2 else rank query f2
    | none => f2
  else f2

/-- `SearchEngine.search` (search_engine.py lines 264-309) together
with `_save_search_history` (lines 398-435).  `save` is the history
store (`Database.save_search_query`), which may fail; the surrounding
`try`/`except` turns any failure into a log line, so the outcome is
total. -/
def search (save : SearchQueryRec → Except Str Nat)
    (sem : Option (Str → List Paper → List Paper))
    (query : Str) (papers : List Paper) (filters : Option SearchFilters)
    (useSemantic : Bool) (userId : Option Str) : SearchOutcome :=
  if papers.isEmpty then ⟨[], none, false⟩
  else
    let f3 := searchResults sem query papers filters useSemantic
    let rec0 : SearchQueryRec := ⟨query, filters, f3.length, userId⟩
    match save rec0 with
    | Except.ok _ => ⟨f3, some rec0, true⟩
    | Except.error _ => ⟨f3, some rec0, false⟩

end SearchEngine

/-!
## LLMFilter (filtering/llm_filter.py)

The scoring oracle (`client.chat.completions.create` plus the content
extraction) is an external collaborator: it enters the embedding as a
function from the batch to either an error message (the `str(e)` of the
raised exception) or the response text.  The response parsers are
embedded in full; `json.loads`, `float(...)` and the `re` patterns used
by the code are modelled by the executable functions below.

Scores are integers (`Int`): every score produced by the verified paths
is integral, and Python float arithmetic is exact on them.  Python
exceptions are the `PyErr` type; an `except` clause is a `match` on the
constructors it catches.
-/

namespace LLMFilter

/-- The comma character. -/
def commaC : Char := Char.ofNat 44

/-- Python exceptions distinguished by the `except` clauses of
`llm_filter.py`. -/
inductive PyErr where
  | valueError
  | jsonDecodeError
  | typeError
  | attributeError
deriving DecidableEq

/-- Model of Python `str(e)` for the exceptions above; no claim depends
on the exact text. -/
def pyErrMsg : PyErr → Str
  | .valueError => ("ValueError").toList
  | .jsonDecodeError => ("JSONDecodeError").toList
  | .typeError => ("TypeError").toList
  | .attributeError => ("AttributeError").toList

/-- JSON values (the fragment produced by `json.loads` on the inputs
the claims use: numbers are integer literals). -/
inductive Json where
  | null
  | bool (b : Bool)
  | num (n : Int)
  | str (s : Str)
  | arr (elems : List Json)
  | obj (fields : List (Str × Json))

/-- JSON whitespace (space, tab, newline, carriage return). -/
def jsonWsChar (c : Char) : Bool :=
  c = Char.ofNat 32 || c = Char.ofNat 9 || c = Char.ofNat 10 || c = Char.ofNat 13

/-- Skip JSON whitespace. -/
def jsonSkipWs (s : Str) : Str := s.dropWhile jsonWsChar

/-- Parse a JSON string body after the opening quote (escape sequences
do not occur in the verified inputs). -/
def parseStrLit (s : Str) : Option (Str × Str) :=
  match s.dropWhile (fun c => c ≠ quoteC) with
  | _ :: rest => some (s.takeWhile (fun c => c ≠ quoteC), rest)
  | [] => none

/-- Numeric value of a digit string. -/
def digitsVal (ds : Str) : Nat :=
  ds.foldl (fun a c => a * 10 + (c.toNat - 48)) 0

/-- Parse a JSON integer literal (optional minus sign, digits). -/
def parseNumLit (s : Str) : Option (Int × Str) :=
  match s with
  | c :: rest =>
    if c = '-' then
      let ds := rest.takeWhile Char.isDigit
      if ds.isEmpty then none
      else some (-(digitsVal ds : Int), rest.drop ds.length)
    else
      let ds := s.takeWhile Char.isDigit
      if ds.isEmpty then none
      else some ((digitsVal ds : Int), s.drop ds.length)
  | [] => none

mutual

/-- Recursive-descent JSON value parser; the fuel argument bounds the
recursion depth and loop length.  Models `json.loads` on the integer
fragment of JSON used by the verified inputs (no escapes, no floats,
no exponents). -/
def parseJsonVal : Nat → Str → Option (Json × Str)
  | 0, _ => none
  | fuel + 1, s =>
    match jsonSkipWs s with
    | [] => none
    | c :: rest =>
      if c = quoteC then (parseStrLit rest).map (fun p => (Json.str p.1, p.2))
      else if c = lbracketC then
        (match jsonSkipWs rest with
         | d :: rest2 =>
           if d = rbracketC then some (Json.arr [], rest2)
           else parseArrItems fuel (jsonSkipWs rest)
         | [] => none)
      else if c = lbraceC then
        (match jsonSkipWs rest with
         | d :: rest2 =>
           if d = rbraceC then some (Json.obj [], rest2)
           else parseObjItems fuel (jsonSkipWs rest)
         | [] => none)
      else if (("true").toList).isPrefixOf (c :: rest) then
        some (Json.bool true, (c :: rest).drop 4)
      else if (("false").toList).isPrefixOf (c :: rest) then
        some (Json.bool false, (c :: rest).drop 5)
      else if (("null").toList).isPrefixOf (c :: rest) then
        some (Json.null, (c :: rest).drop 4)
      else (parseNumLit (c :: rest)).map (fun p => (Json.num p.1, p.2))

/-- Parse the items of a non-empty JSON array (the opening bracket has
been consumed). -/
def parseArrItems : Nat → Str → Option (Json × Str)
  | 0, _ => none
  | fuel + 1, s =>
    match parseJsonVal fuel s with
    | none => none
    | some (v, rest) =>
      match jsonSkipWs rest with
      | [] => none
      | c :: rest2 =>
        if c = rbracketC then some (Json.arr [v], rest2)
        else if c ≠ commaC then none
        else
          match parseArrItems fuel rest2 with
          | some (Json.arr vs, r) => some (Json.arr (v :: vs), r)
          | _ => none

/-- Parse the fields of a non-empty JSON object (the opening brace has
been consumed). -/
def parseObjItems : Nat → Str → Option (Json × Str)
  | 0, _ => none
  | fuel + 1, s =>
    match jsonSkipWs s with
    | [] => none
    | c :: rest =>
      if c ≠ quoteC then none
      else
        match parseStrLit rest with
        | none => none
        | some (k, rest2) =>
          match jsonSkipWs rest2 with
          | [] => none
          | d :: rest3 =>
            if d ≠ colonC then none
            else
              match parseJsonVal fuel rest3 with
              | none => none
              | some (v, rest4) =>
                match jsonSkipWs rest4 with
                | [] => none
                | e2 :: rest5 =>
                  if e2 = rbraceC then some (Json.obj [(k, v)], rest5)
                  else if e2 ≠ commaC then none
                  else
                    match parseObjItems fuel rest5 with
                    | some (Json.obj kvs, r) =>
                      some (Json.obj ((k, v) :: kvs), r)
                    | _ => none

end

/-- Model of `json.loads`: parse one value, require only whitespace
after it; `none` models a raised `json.JSONDecodeError`. -/
def jsonLoads (s : Str) : Option Json :=
  match parseJsonVal (2 * s.length + 4) s with
  | some (v, rest) => if (jsonSkipWs rest).isEmpty then some v else none
  | none => none

/-- Model of Python `float(s)` for strings: strip whitespace, optional
sign, decimal digits (the integer fragment; every string reaching
`float` in the verified paths is of this shape or non-numeric). -/
def pyFloatOfStr (s : Str) : Option Int :=
  let t := pyStrip s
  match t with
  | c :: rest =>
    if c = '-' then
      if !rest.isEmpty && rest.all Char.isDigit then
        some (-(digitsVal rest : Int))
      else none
    else if c = '+' then
      if !rest.isEmpty && rest.all Char.isDigit then some ((digitsVal rest : Int))
      else none
    else
      if t.all Char.isDigit then some ((digitsVal t : Int)) else none
  | [] => none

/-- Model of Python `float(x)` on a parsed JSON value: numbers and
booleans convert, numeric strings parse, non-numeric strings raise
`ValueError`, containers and `None` raise `TypeError`. -/
def pyFloat : Json → Except PyErr Int
  | .num n => .ok n
  | .bool b => .ok (if b then 1 else 0)
  | .str s =>
    match pyFloatOfStr s with
    | some n => .ok n
    | none => .error .valueError
  | _ => .error .typeError

/-- `dict.get(k, dflt)` on a parsed JSON object (duplicate keys keep
the last occurrence, as Python dicts do). -/
def objGet (kvs : List (Str × Json)) (k : Str) (dflt : Json) : Json :=
  match kvs.reverse.find? (fun kv => kv.1 == k) with
  | some kv => kv.2
  | none => dflt

/-- `item.get(k, dflt)` on an arbitrary value: non-dicts raise
`AttributeError`. -/
def itemGet (j : Json) (k : Str) (dflt : Json) : Except PyErr Json :=
  match j with
  | .obj kvs => .ok (objGet kvs k dflt)
  | _ => .error .attributeError

/-- The explanation value as stored on the result.  The Python code
stores `item.get("explanation", dflt)` unchanged; it is a string in
every verified path, and non-string values are rendered by a simple
printer no claim depends on. -/
def explStr : Json → Str
  | .str s => s
  | .num n => (toString n).toList
  | .bool b => (if b then ("True") else ("False")).toList
  | .null => ("None").toList
  | .arr _ => [lbracketC, dotC, dotC, dotC, rbracketC]
  | .obj _ => [lbraceC, dotC, dotC, dotC, rbraceC]

/-- The `RelevanceResult` dataclass (llm_filter.py lines 19-25). -/
structure RelevanceResult where
  score : Int
  explanation : Str
  paper : Paper
deriving DecidableEq

/-- The key `"score"`. -/
def scoreKey : Str := ("score").toList

/-- The key `"explanation"`. -/
def explKey : Str := ("explanation").toList

/-- The default explanation of the batch parsers. -/
def noExplanationStr : Str := ("No explanation").toList

/-- A markdown fence: three backticks. -/
def fenceStr : Str := [fenceC, fenceC, fenceC]

/-- Strip trailing whitespace. -/
def rstripWs (s : Str) : Str := (s.reverse.dropWhile pyIsSpace).reverse

/-- Scan for the first fenced code block, modelling
`re.search(r"```(?:json)?\s*([\s\S]*?)\s*```", content)`: find an
opening fence, optionally skip a literal `json`, skip whitespace, and
take everything (lazily) up to the next fence, with trailing
whitespace stripped; if an opening fence has no closing fence the
engine advances and retries. -/
def stripCodeBlockAux : Nat → Str → Option Str
  | 0, _ => none
  | fuel + 1, s =>
    match findSub s fenceStr with
    | none => none
    | some i =>
      let afterOpen := s.drop (i + 3)
      let afterJson :=
        if (("json").toList).isPrefixOf afterOpen then afterOpen.drop 4
        else afterOpen
      let body := afterJson.dropWhile pyIsSpace
      match findSub body fenceStr with
      | some j => some (rstripWs (body.take j))
      | none => stripCodeBlockAux fuel (s.drop (i + 1))

/-- The markdown-fence cleanup of `_parse_batch_response` (llm_filter.py
lines 319-324): the fenced group if a fenced block is present, the
content unchanged otherwise. -/
def stripCodeBlock (content : Str) : Str :=
  match stripCodeBlockAux (content.length + 1) content with
  | some g => g
  | none => content

/-- `re.findall(r"\{[^{}]*\}", s)`: all non-overlapping innermost
brace-delimited segments, left to right. -/
def findBraceObjsAux : Nat → Str → List Str
  | 0, _ => []
  | _ + 1, [] => []
  | fuel + 1, c :: rest =>
    if c = lbraceC then
      let run := rest.takeWhile (fun x => x ≠ lbraceC && x ≠ rbraceC)
      match rest.drop run.length with
      | d :: rest2 =>
        if d = rbraceC then
          (lbraceC :: (run ++ [rbraceC])) :: findBraceObjsAux fuel rest2
        else findBraceObjsAux fuel rest
      | [] => findBraceObjsAux fuel rest
    else findBraceObjsAux fuel rest

/-- `re.findall(r"\{[^{}]*\}", s)`. -/
def findBraceObjs (s : Str) : List Str := findBraceObjsAux (s.length + 1) s

/-- The loop over a parsed JSON array (llm_filter.py lines 334-344):
results accumulate for the first `len(papers)` items; an exception
carries the partially built list with it, because the surrounding code
keeps the `results` variable. -/
def arrayLoop : List Json → (papers : List Paper) → Nat →
    List RelevanceResult →
    Except (PyErr × List RelevanceResult) (List RelevanceResult)
  | [], _, _, acc => .ok acc
  | item :: items, papers, i, acc =>
    if h : i < papers.length then
      match itemGet item scoreKey (Json.num 50) with
      | .error e => .error (e, acc)
      | .ok sv =>
        match pyFloat sv with
        | .error e => .error (e, acc)
        | .ok sc =>
          match itemGet item explKey (Json.str noExplanationStr) with
          | .error e => .error (e, acc)
          | .ok ev =>
            arrayLoop items papers (i + 1)
              (acc ++ [⟨sc, explStr ev, papers.get ⟨i, h⟩⟩])
    else arrayLoop items papers (i + 1) acc

/-- The fill loop (llm_filter.py lines 346-354 and 381-389): papers
beyond the accumulated results get a default `Not scored` entry. -/
def fillMissing (rs : List RelevanceResult) (papers : List Paper) :
    List RelevanceResult :=
  rs ++ (papers.drop rs.length).map (fun p =>
    ⟨50, ("Not scored").toList, p⟩)

/-- Outcome of the JSON-array strategy: an early `return`, a fall
through to the next strategy (carrying the current `results` list), or
an uncaught exception. -/
inductive StageOut where
  | done (rs : List RelevanceResult)
  | fallth (leak : List RelevanceResult)
  | raised (e : PyErr)
deriving DecidableEq

/-- The JSON-array strategy of `_parse_batch_response` (llm_filter.py
lines 326-358): bracket slice, `json.loads`, the item loop, the fill
loop and the `return`; `json.JSONDecodeError` and `ValueError` are
caught and fall through, other exceptions propagate. -/
def arrayStage (cleaned : Str) (papers : List Paper) : StageOut :=
  match pyFindChar cleaned lbracketC, pyRFindChar cleaned rbracketC with
  | some s, some e =>
    if s ≤ e then
      match jsonLoads (sliceStr cleaned s (e + 1)) with
      | none => .fallth []
      | some (Json.arr items) =>
        match arrayLoop items papers 0 [] with
        | .ok rs => .done (fillMissing rs papers)
        | .error (PyErr.valueError, acc) => .fallth acc
        | .error (PyErr.jsonDecodeError, acc) => .fallth acc
        | .error (err, _) => .raised err
      | some _ => .raised PyErr.typeError
    else .fallth []
  | _, _ => .fallth []

/-- The loop over individual brace-delimited objects (llm_filter.py
lines 364-378): `json.JSONDecodeError` and `ValueError` are caught per
object (`continue`); any other exception is caught by the outer
`except Exception`, abandoning the loop with the current results
(`Except.error`). -/
def objsLoop : List Str → (papers : List Paper) → Nat →
    List RelevanceResult →
    Except (List RelevanceResult) (List RelevanceResult)
  | [], _, _, acc => .ok acc
  | o :: os, papers, i, acc =>
    if h : i < papers.length then
      match jsonLoads o with
      | none => objsLoop os papers (i + 1) acc
      | some j =>
        match itemGet j scoreKey (Json.num 50) with
        | .error _ => .error acc
        | .ok sv =>
          match pyFloat sv with
          | .ok sc =>
            match itemGet j explKey (Json.str noExplanationStr) with
            | .error _ => .error acc
            | .ok ev =>
              objsLoop os papers (i + 1)
                (acc ++ [⟨sc, explStr ev, papers.get ⟨i, h⟩⟩])
          | .error PyErr.valueError => objsLoop os papers (i + 1) acc
          | .error _ => .error acc
    else objsLoop os papers (i + 1) acc

/-- The individual-objects strategy (llm_filter.py lines 360-392):
if brace objects were found and the loop left a non-empty `results`,
fill and return (`Sum.inl`); otherwise fall through with the current
`results` (`Sum.inr`). -/
def objectsStage (cleaned : Str) (papers : List Paper)
    (results : List RelevanceResult) :
    Sum (List RelevanceResult) (List RelevanceResult) :=
  let objs := findBraceObjs cleaned
  if objs.isEmpty then .inr results
  else
    match objsLoop objs papers 0 results with
    | .ok rs => if rs.isEmpty then .inr rs else .inl (fillMissing rs papers)
    | .error rs => .inr rs

/-- A run of decimal digits. -/
def digitRun (s : Str) : Str := s.takeWhile Char.isDigit

/-- The tail `\s*[/\\]?\s*100` of the single-paper fallback pattern:
whitespace, an optional slash or backslash, whitespace, then the
literal `100`. -/
def hundredTail (s : Str) : Option Str :=
  let r1 := s.dropWhile pyIsSpace
  let r2 :=
    match r1 with
    | c :: rest => if c = slashC || c = backslashC then rest else r1
    | [] => r1
  let r3 := r2.dropWhile pyIsSpace
  if (("100").toList).isPrefixOf r3 then some (r3.drop 3) else none

/-- Greedy-with-backtracking digit group `(\d{1,3})` followed by
`hundredTail`, trying `d` digits, then `d - 1`, ... -/
def singleTryD : Str → Nat → Option Nat
  | _, 0 => none
  | s, d + 1 =>
    match hundredTail (s.drop (d + 1)) with
    | some _ => some (digitsVal (s.take (d + 1)))
    | none => singleTryD s d

/-- One attempt of `(\d{1,3})\s*[/\\]?\s*100` at the given position. -/
def singleTryAt (s : Str) : Option Nat :=
  singleTryD s (min 3 (digitRun s).length)

/-- `re.search(r"(\d{1,3})\s*[/\\]?\s*100", content)`, returning the
numeric value of the first capture group of the leftmost match. -/
def singleSearch : Str → Option Nat
  | [] => none
  | c :: t =>
    match singleTryAt (c :: t) with
    | some n => some n
    | none => singleSearch t

/-- One attempt of `[Pp]aper\s*(\d+)[:\s]+(\d{1,3})(?:/100)?` at the
given position, returning the two capture groups and the remainder
after the match. -/
def p1TryAt (s : Str) : Option ((Nat × Nat) × Str) :=
  match s with
  | c :: rest =>
    if (c = 'P' || c = 'p') && (("aper").toList).isPrefixOf rest then
      let r1 := (rest.drop 4).dropWhile pyIsSpace
      let d1 := digitRun r1
      if d1.isEmpty then none
      else
        let r2 := r1.drop d1.length
        let sep := r2.takeWhile (fun x => x = colonC || pyIsSpace x)
        if sep.isEmpty then none
        else
          let r3 := r2.drop sep.length
          let d2 := digitRun r3
          if d2.isEmpty then none
          else
            let d := min 3 d2.length
            let r4 := r3.drop d
            let r5 := if (("/100").toList).isPrefixOf r4 then r4.drop 4 else r4
            some ((digitsVal d1, digitsVal (r3.take d)), r5)
    else none
  | [] => none

/-- One attempt of `(\d+)\.\s*[Ss]core[:\s]+(\d{1,3})` at the given
position. -/
def p2TryAt (s : Str) : Option ((Nat × Nat) × Str) :=
  let d1 := digitRun s
  if d1.isEmpty then none
  else
    match s.drop d1.length with
    | c :: r1 =>
      if c = dotC then
        let r2 := r1.dropWhile pyIsSpace
        match r2 with
        | d :: r3 =>
          if (d = 'S' || d = 's') && (("core").toList).isPrefixOf r3 then
            let r4 := r3.drop 4
            let sep := r4.takeWhile (fun x => x = colonC || pyIsSpace x)
            if sep.isEmpty then none
            else
              let r5 := r4.drop sep.length
              let d2 := digitRun r5
              if d2.isEmpty then none
              else
                let dd := min 3 d2.length
                some ((digitsVal d1, digitsVal (r5.take dd)), r5.drop dd)
          else none
        | [] => none
      else none
    | [] => none

/-- Greedy-with-backtracking `(\d{1,3})\s*/\s*100` at one position,
returning the group value and the remainder after `100`. -/
def p3TryD : Str → Nat → Option (Nat × Str)
  | _, 0 => none
  | s, d + 1 =>
    let r1 := (s.drop (d + 1)).dropWhile pyIsSpace
    match r1 with
    | c :: r2 =>
      if c = slashC then
        let r3 := r2.dropWhile pyIsSpace
        if (("100").toList).isPrefixOf r3 then
          some (digitsVal (s.take (d + 1)), r3.drop 3)
        else p3TryD s d
      else p3TryD s d
    | [] => p3TryD s d

/-- `(\d{1,3})\s*/\s*100` at one position. -/
def p3TailAt (s : Str) : Option (Nat × Str) :=
  p3TryD s (min 3 (digitRun s).length)

/-- The lazy `.*?` scan of pattern 3: advance to the first position at
which the score tail matches, never moving past a newline (`.` does not
match newlines). -/
def p3Scan : Nat → Str → Option (Nat × Str)
  | 0, _ => none
  | _ + 1, [] => none
  | fuel + 1, c :: t =>
    match p3TailAt (c :: t) with
    | some r => some r
    | none => if c = newlineC then none else p3Scan fuel t

/-- One attempt of `(\d+)[.)\s]+.*?(\d{1,3})\s*/\s*100` at the given
position. -/
def p3TryAt (s : Str) : Option ((Nat × Nat) × Str) :=
  let d1 := digitRun s
  if d1.isEmpty then none
  else
    let r1 := s.drop d1.length
    let sep := r1.takeWhile (fun x => x = dotC || x = rparenC || pyIsSpace x)
    if sep.isEmpty then none
    else
      let r2 := r1.drop sep.length
      match p3Scan (r2.length + 1) r2 with
      | some (n2, rest) => some ((digitsVal d1, n2), rest)
      | none => none

/-- `re.findall` driver: scan left to right, collecting the groups of
non-overlapping matches and resuming after each match. -/
def findallAux (tryAt : Str → Option ((Nat × Nat) × Str)) :
    Nat → Str → List (Nat × Nat)
  | 0, _ => []
  | _ + 1, [] => []
  | fuel + 1, c :: t =>
    match tryAt (c :: t) with
    | some (g, rest) => g :: findallAux tryAt fuel rest
    | none => findallAux tryAt fuel t

/-- `re.findall` for one of the three batch score patterns. -/
def findallP (tryAt : Str → Option ((Nat × Nat) × Str)) (s : Str) :
    List (Nat × Nat) :=
  findallAux tryAt (s.length + 1) s

/-- `MIN_SCORE`/`MAX_SCORE` clamping of one extracted score
(llm_filter.py line 408): `min(MAX_SCORE, max(MIN_SCORE, n))`. -/
def clampScore (n : Nat) : Nat := min 100 (max 0 n)

/-- The `paper_scores` dict built from the regex matches (lines
405-409); later entries for the same paper number overwrite earlier
ones. -/
def buildPaperScores (pairs : List (Nat × Nat)) : List (Nat × Nat) :=
  pairs.map (fun g => (g.1, clampScore g.2))

/-- `paper_scores.get(k, dflt)` with the last binding winning. -/
def dictGetLast (ps : List (Nat × Nat)) (k : Nat) : Option Nat :=
  (ps.reverse.find? (fun kv => kv.1 == k)).map (fun kv => kv.2)

/-- The explanation used for regex-extracted scores. -/
def scoreExtractedMsg : Str := ("Score extracted from text").toList

/-- The per-paper emission loop of the regex fallback (llm_filter.py
lines 411-421); note that it appends to the `results` variable, which
may still hold entries leaked from a failed earlier strategy. -/
def emitRegexResults (pairs : List (Nat × Nat)) (papers : List Paper)
    (results : List RelevanceResult) : List RelevanceResult :=
  let scores := buildPaperScores pairs
  results ++ papers.enum.map (fun ip =>
    ⟨((dictGetLast scores (ip.1 + 1)).getD 50 : Int), scoreExtractedMsg, ip.2⟩)

/-- The regex-fallback strategy (llm_filter.py lines 394-421): the
three patterns are tried in order on the original `content`; `none`
means no pattern matched. -/
def regexStage (content : Str) (papers : List Paper)
    (results : List RelevanceResult) : Option (List RelevanceResult) :=
  let m1 := findallP p1TryAt content
  if !m1.isEmpty && !(buildPaperScores m1).isEmpty then
    some (emitRegexResults m1 papers results)
  else
    let m2 := findallP p2TryAt content
    if !m2.isEmpty && !(buildPaperScores m2).isEmpty then
      some (emitRegexResults m2 papers results)
    else
      let m3 := findallP p3TryAt content
      if !m3.isEmpty && !(buildPaperScores m3).isEmpty then
        some (emitRegexResults m3 papers results)
      else none

/-- The sentinel explanation of the terminal fallback (llm_filter.py
line 427). -/
def unableMsg : Str := ("Unable to parse LLM response").toList

/-- `LLMFilter._parse_batch_response` (llm_filter.py lines 307-431):
markdown cleanup, then the JSON-array strategy, the individual-objects
strategy, the regex fallback, and the default-score fallback, with the
`results` accumulator threaded through the strategies exactly as in the
code. -/
def parseBatchResponse (content : Str) (papers : List Paper) :
    Except PyErr (List RelevanceResult) :=
  let cleaned := stripCodeBlock content
  match arrayStage cleaned papers with
  | .raised e => .error e
  | .done rs => .ok rs
  | .fallth r1 =>
    match objectsStage cleaned papers r1 with
    | .inl rs => .ok rs
    | .inr r2 =>
      match regexStage content papers r2 with
      | some rs => .ok rs
      | none => .ok (papers.map (fun p => ⟨50, unableMsg, p⟩))

/-- The single-paper default explanation (llm_filter.py line 293). -/
def noExplanationProvided : Str := ("No explanation provided").toList

/-- `LLMFilter._parse_response` (llm_filter.py lines 276-305): brace
slice and `json.loads` with `ValueError`/`JSONDecodeError` falling
through to the regex fallback, which returns the captured number
without clamping, and a final default of `50`. -/
def parseResponse (content : Str) : Except PyErr (Int × Str) :=
  let viaRegex : Except PyErr (Int × Str) :=
    match singleSearch content with
    | some n => .ok ((n : Int), content)
    | none => .ok (50, content)
  match pyFindChar content lbraceC, pyRFindChar content rbraceC with
  | some s, some e =>
    if s ≤ e then
      match jsonLoads (sliceStr content s (e + 1)) with
      | none => viaRegex
      | some (Json.obj kvs) =>
        match pyFloat (objGet kvs scoreKey (Json.num 50)) with
        | .ok n =>
          .ok (n, explStr (objGet kvs explKey (Json.str noExplanationProvided)))
        | .error PyErr.valueError => viaRegex
        | .error e2 => .error e2
      | some _ => .error PyErr.attributeError
    else viaRegex
  | _, _ => viaRegex

/-- The explanation prefix used by the error handlers of
`score_paper`/`_score_batch`. -/
def errorMsgHead : Str := ("Error: ").toList

/-- `LLMFilter._score_batch` (llm_filter.py lines 136-169): call the
oracle on the batch; any oracle failure, and any exception escaping the
response parsing, becomes a default result with score `50` and an
explanation embedding the error text, for every paper of the batch. -/
def scoreBatch (oracle : List Paper → Except Str Str)
    (batch : List Paper) : List RelevanceResult :=
  match oracle batch with
  | .error e => batch.map (fun p => ⟨50, errorMsgHead ++ e, p⟩)
  | .ok content =>
    match parseBatchResponse content batch with
    | .ok rs => rs
    | .error e => batch.map (fun p => ⟨50, errorMsgHead ++ pyErrMsg e, p⟩)

/-- `LLMFilter.score_papers` (llm_filter.py lines 110-134): process the
papers in consecutive batches of `batchSize`, concatenating the batch
results (Python's `range(0, n, step)` requires a positive step). -/
def scorePapers (oracle : List Paper → Except Str Str) (batchSize : Nat)
    (papers : List Paper) : List RelevanceResult :=
  if _h : batchSize = 0 ∨ papers = [] then []
  else
    scoreBatch oracle (papers.take batchSize) ++
      scorePapers oracle batchSize (papers.drop batchSize)
termination_by papers.length
decreasing_by
  have h1 : batchSize ≠ 0 ∧ papers ≠ [] := by tauto
  have h2 : 0 < papers.length := List.length_pos.mpr h1.2
  simp only [List.length_drop]
  omega

/-- The batch decomposition used by `score_papers`: the slices
`papers[i : i + batchSize]` for `i = 0, batchSize, ...`. -/
def pyChunks (batchSize : Nat) (papers : List Paper) : List (List Paper) :=
  if _h : batchSize = 0 ∨ papers = [] then []
  else papers.take batchSize :: pyChunks batchSize (papers.drop batchSize)
termination_by papers.length
decreasing_by
  have h1 : batchSize ≠ 0 ∧ papers ≠ [] := by tauto
  have h2 : 0 < papers.length := List.length_pos.mpr h1.2
  simp only [List.length_drop]
  omega

end LLMFilter

/-!
## Concrete fixtures

Sample papers, oracle behaviours and response texts used by the
theorems and witnesses below.
-/

/-- A minimal sample paper (titled `Paper A`). -/
def pA : Paper :=
  { title := ("Paper A").toList, authors := [], abstract := [],
    doi := some (("10.1234/a").toList), journal := [], publicationDate := [],
    url := [], source := [] }

/-- A second minimal sample paper (titled `Paper B`). -/
def pB : Paper :=
  { title := ("Paper B").toList, authors := [], abstract := [],
    doi := some (("10.1234/b").toList), journal := [], publicationDate := [],
    url := [], source := [] }

/-- A sample paper published in Nature. -/
def paperNature : Paper :=
  { title := ("Paper 1").toList, authors := [("Author 1").toList],
    abstract := ("Abstract 1").toList, doi := some (("10.1234/1").toList),
    journal := ("Nature").toList, publicationDate := ("2024-01-01").toList,
    url := ("u1").toList, source := ("pubmed").toList }

/-- A sample paper published on bioRxiv. -/
def paperBio : Paper :=
  { title := ("Paper 2").toList, authors := [("Author 2").toList],
    abstract := ("Abstract 2").toList, doi := some (("10.1234/2").toList),
    journal := ("bioRxiv").toList, publicationDate := ("2024-01-02").toList,
    url := ("u2").toList, source := ("biorxiv").toList }

/-- A sample paper from an unclassified journal. -/
def paperUnknown : Paper :=
  { title := ("Paper 3").toList, authors := [("Author 3").toList],
    abstract := ("Abstract 3").toList, doi := some (("10.1234/3").toList),
    journal := ("Some Random Journal").toList,
    publicationDate := ("2024-01-03").toList,
    url := ("u3").toList, source := ("pubmed").toList }

/-- A paper whose title is the empty string. -/
def paperEmptyTitle : Paper :=
  { title := [], authors := [("Author").toList],
    abstract := ("Abstract").toList,
    doi := some (("10.1234/empty-title").toList),
    journal := ("Nature").toList, publicationDate := ("2024-01-01").toList,
    url := ("u").toList, source := ("pubmed").toList }

/-- A paper whose title is whitespace only. -/
def paperWsTitle : Paper :=
  { title := ("   ").toList, authors := [("Author").toList],
    abstract := ("Abstract").toList,
    doi := some (("10.1234/whitespace-title").toList),
    journal := ("Nature").toList, publicationDate := ("2024-01-01").toList,
    url := ("u").toList, source := ("pubmed").toList }

/-- An oracle response on which the JSON-array strategy of
`_parse_batch_response` partially succeeds and then raises `ValueError`
(the second item's score is the non-numeric string `"x"`), while the
brace-object regex only sees the two inner empty objects:
`[{"score":80,"m":{}},{"score":"x","m":{}}]`
(braces written with escapes). -/
def c10content : Str :=
  ("[\x7b\x22score\x22:80,\x22m\x22:\x7b\x7d\x7d,\x7b\x22score\x22:\x22x\x22,\x22m\x22:\x7b\x7d\x7d]").toList

/-- An oracle returning `c10content` for every batch. -/
def oracleC10 : List Paper → Except Str Str := fun _ => Except.ok c10content

/-- An oracle whose call raises, with `str(e) = "boom"`. -/
def oracleFailW : List Paper → Except Str Str :=
  fun _ => Except.error (("boom").toList)

/-- A history store that always fails. -/
def saveFailW : SearchEngine.SearchQueryRec → Except Str Nat :=
  fun _ => Except.error (("db down").toList)

/-- A history store that always succeeds. -/
def saveOkW : SearchEngine.SearchQueryRec → Except Str Nat :=
  fun _ => Except.ok 1

/-- A sample query string. -/
def qW : Str := ("paper").toList

/-- Total number of terms held in a parsing-loop state. -/
def BooleanQueryParser.stTotal (st : BooleanQueryParser.PQState) : Nat :=
  st.must.length + st.should.length + st.mustNot.length + st.orTerms.length

/-- Total number of terms in a parsed query. -/
def BooleanQueryParser.pqTotal (pq : BooleanQueryParser.ParsedQuery) : Nat :=
  pq.must.length + pq.should.length + pq.mustNot.length

/-!
## Theorems

One theorem per claim of the specification, with supporting lemmas.
-/

/-- Claim C6: the four example queries parse as the specification
says: `deep AND learning` is two must-terms; `genomics OR proteomics`
is two should-terms; `machine learning NOT clinical` is two must-terms
and one must-not term; and a quoted `"machine learning"` is one atomic
must-term, distinct from the two-term unquoted query. -/
theorem parse_example_queries :
    BooleanQueryParser.parse (("deep AND learning").toList) =
      ⟨[("deep").toList, ("learning").toList], [], []⟩ ∧
    BooleanQueryParser.parse (("genomics OR proteomics").toList) =
      ⟨[], [("genomics").toList, ("proteomics").toList], []⟩ ∧
    BooleanQueryParser.parse (("machine learning NOT clinical").toList) =
      ⟨[("machine").toList, ("learning").toList], [], [("clinical").toList]⟩ ∧
    BooleanQueryParser.parse (("\x22machine learning\x22").toList) =
      ⟨[("machine learning").toList], [], []⟩ ∧
    BooleanQueryParser.parse (("machine learning").toList) =
      ⟨[("machine").toList, ("learning").toList], [], []⟩ ∧
    BooleanQueryParser.parse (("\x22machine learning\x22").toList) ≠
      BooleanQueryParser.parse (("machine learning").toList) := by
  decide

/-- Claim C7: the journal classifier's tier assignment on the five
example journals, and the `nejm` alias normalization. -/
theorem journal_tier_examples :
    JournalFilter.getJournalTier (("Nature").toList) =
      some (("tier1").toList) ∧
    JournalFilter.getJournalTier (("Nature Methods").toList) =
      some (("tier2").toList) ∧
    JournalFilter.getJournalTier (("NeurIPS").toList) =
      some (("ml").toList) ∧
    JournalFilter.getJournalTier (("bioRxiv").toList) =
      some (("preprints").toList) ∧
    JournalFilter.getJournalTier (("Some Random Journal").toList) = none ∧
    JournalFilter.normalizeJournalName (("nejm").toList) =
      ("The New England Journal of Medicine").toList := by
  decide

/-- Claim C2, counterexample: with three papers (Nature, bioRxiv, an
unclassified journal) and `exclude=["Nature"]` under the default
configuration, `filter_papers` does *not* return the two non-Nature
papers: the unclassified-journal paper is dropped as well, because the
default `show_preprints=True` seeds the allowed-journal set with the
preprint servers, so the "include all" branch is never reached. -/
theorem journal_filter_drops_unclassified :
    paperUnknown ∉
      JournalFilter.filterPapers JournalFilter.defaultJournalConfig
        [paperNature, paperBio, paperUnknown]
        none (some [("Nature").toList]) none true := by
  decide

/-- Claim C2, amended: under the default configuration,
`filter_papers` with `exclude=["Nature"]` keeps exactly the bioRxiv
paper; the function returns only this filtered list (there is no
excluded-list echo in its return value). -/
theorem journal_filter_exclude_nature :
    JournalFilter.filterPapers JournalFilter.defaultJournalConfig
        [paperNature, paperBio, paperUnknown]
        none (some [("Nature").toList]) none true = [paperBio] := by
  decide

/-- Claim C3: at the failing input `150/100`, the single-paper parser's
regex fallback returns the unclamped score `150`, above the documented
bound of 100, while the batch parser's regex fallback clamps the same
text match to `100`. -/
theorem single_parser_regex_unclamped :
    LLMFilter.parseResponse (("150/100").toList) =
      Except.ok (150, ("150/100").toList) ∧
    LLMFilter.parseBatchResponse (("Paper 1: 150/100").toList) [pA] =
      Except.ok [⟨100, LLMFilter.scoreExtractedMsg, pA⟩] ∧
    (150 : Int) > 100 := by
  decide

/-- Claim C4: at the failing inputs (papers whose title is empty or
whitespace-only), `save_paper` does *not* return a zero sentinel and
does persist the paper: on a fresh database it returns the fresh row id
`1` and the paper is visible to the subsequent existence check; and
`save_papers` behaves the same per paper. -/
theorem save_paper_accepts_empty_title :
    (Database.savePaper Database.dbInit paperEmptyTitle).2 = 1 ∧
    Database.paperExists (Database.savePaper Database.dbInit paperEmptyTitle).1
      (("10.1234/empty-title").toList) = true ∧
    (Database.savePaper Database.dbInit paperWsTitle).2 = 1 ∧
    (Database.savePapers Database.dbInit [paperEmptyTitle, paperWsTitle]).2 =
      [1, 2] := by
  decide

/-- Claim C8, counterexample: the parse of the query `phrase` drops its
only token: `phrase` upper-cases to the placeholder token `PHRASE`,
which is not an operator keyword, yet — there being no quoted phrase to
substitute — it lands in none of the three sets. -/
theorem parse_drops_bare_phrase_token :
    BooleanQueryParser.parse (("phrase").toList) = ⟨[], [], []⟩ ∧
    BooleanQueryParser.tokensOf (("phrase").toList) = [("PHRASE").toList] ∧
    BooleanQueryParser.isOpTok (("PHRASE").toList) = false := by
  decide

/-- Claim C9, counterexample: a call of `SearchEngine.search` with an
empty candidate list returns before reaching the history step, so
nothing is recorded for that call. -/
theorem search_empty_records_nothing :
    (SearchEngine.search saveOkW none qW ([] : List Paper) none
        false none).attempted = none := by
  decide

/-- Claim C10: at the failing input (an oracle response whose JSON
array parses but whose second item's score raises `ValueError` midway,
leaving partial results that leak into the brace-object strategy),
batch scoring returns three results for two input papers, and the
second result refers to the first paper — length and order are not
preserved. -/
theorem batch_scoring_can_duplicate_papers :
    LLMFilter.scorePapers oracleC10 5 [pA, pB] =
      [⟨80, LLMFilter.noExplanationStr, pA⟩,
       ⟨50, LLMFilter.noExplanationStr, pA⟩,
       ⟨50, LLMFilter.noExplanationStr, pB⟩] ∧
    (LLMFilter.scorePapers oracleC10 5 [pA, pB]).length = 3 ∧
    [pA, pB].length = 2 := by
  have h1 : LLMFilter.scorePapers oracleC10 5 [pA, pB] =
      LLMFilter.scoreBatch oracleC10 [pA, pB] := by
    rw [LLMFilter.scorePapers]
    rw [dif_neg (by simp)]
    have hdrop : ([pA, pB].drop 5 : List Paper) = [] := rfl
    have htake : ([pA, pB].take 5 : List Paper) = [pA, pB] := rfl
    rw [hdrop, htake]
    rw [LLMFilter.scorePapers]
    rw [dif_pos (Or.inr rfl), List.append_nil]
  rw [h1]
  refine ⟨by decide, by decide, rfl⟩

/-- Claim C1: `matches` fails exactly when a `must_not` term occurs in
the case-folded text, or a `must` term is absent, or — with `must`
empty — `should` is non-empty and none of its terms occur; an entirely
empty parsed query matches every text; and for a query with only
`must_not` terms, failure is equivalent to one of them occurring. -/
theorem boolean_matches_characterization
    (pq : BooleanQueryParser.ParsedQuery) (text : Str) :
    (BooleanQueryParser.pqMatches pq text = false ↔
      ((∃ t ∈ pq.mustNot, pyIn t (pyLower text) = true) ∨
       (∃ t ∈ pq.must, pyIn t (pyLower text) = false) ∨
       (pq.must = [] ∧ pq.should ≠ [] ∧
         ∀ t ∈ pq.should, pyIn t (pyLower text) = false))) ∧
    (pq.must = [] → pq.should = [] → pq.mustNot = [] →
      BooleanQueryParser.pqMatches pq text = true) ∧
    (pq.must = [] → pq.should = [] →
      (BooleanQueryParser.pqMatches pq text = false ↔
        ∃ t ∈ pq.mustNot, pyIn t (pyLower text) = true)) := by
  have key : BooleanQueryParser.pqMatches pq text = false ↔
      ((∃ t ∈ pq.mustNot, pyIn t (pyLower text) = true) ∨
       (∃ t ∈ pq.must, pyIn t (pyLower text) = false) ∨
       (pq.must = [] ∧ pq.should ≠ [] ∧
         ∀ t ∈ pq.should, pyIn t (pyLower text) = false)) := by
    unfold BooleanQueryParser.pqMatches
    dsimp only
    split_ifs with h1 h2 h3
    · exact iff_of_true rfl (Or.inl (by simpa [List.any_eq_true] using h1))
    · refine iff_of_true rfl (Or.inr (Or.inl ?_))
      simpa [List.any_eq_true, Bool.not_eq_true'] using h2
    · refine iff_of_true rfl (Or.inr (Or.inr ?_))
      simp only [Bool.and_eq_true, Bool.not_eq_true', List.isEmpty_eq_false,
        List.isEmpty_iff, List.any_eq_false] at h3
      exact ⟨h3.1.2, h3.1.1, fun t ht => by simpa using h3.2 t ht⟩
    · refine iff_of_false (by simp) ?_
      rintro (h | h | h)
      · exact h1 (by simpa [List.any_eq_true] using h)
      · exact h2 (by simpa [List.any_eq_true, Bool.not_eq_true'] using h)
      · refine h3 ?_
        simp only [Bool.and_eq_true, Bool.not_eq_true', List.isEmpty_eq_false,
          List.isEmpty_iff, List.any_eq_false]
        exact ⟨⟨h.2.1, h.1⟩, fun t ht => by simpa using h.2.2 t ht⟩
  refine ⟨key, ?_, ?_⟩
  · intro hm hs hmn
    cases hpm : BooleanQueryParser.pqMatches pq text with
    | false =>
      rcases key.mp hpm with h | h | h
      · obtain ⟨t, ht, _⟩ := h
        simp [hmn] at ht
      · obtain ⟨t, ht, _⟩ := h
        simp [hm] at ht
      · exact absurd hs h.2.1
    | true => rfl
  · intro hm hs
    constructor
    · intro hpm
      rcases key.mp hpm with h | h | h
      · exact h
      · obtain ⟨t, ht, _⟩ := h
        simp [hm] at ht
      · exact absurd hs h.2.1
    · intro h
      exact key.mpr (Or.inl h)

/-- Witness for claim C1: the characterization applied to the empty
parsed query shows it matches a concrete text. -/
theorem boolean_matches_characterization_witness :
    BooleanQueryParser.pqMatches ⟨[], [], []⟩ (("anything").toList) = true :=
  (boolean_matches_characterization ⟨[], [], []⟩
    (("anything").toList)).2.1 rfl rfl rfl

/-- `score_papers` equals the concatenation of per-batch results over
the batch decomposition (supporting lemma for claim C5). -/
theorem scorePapers_eq_flatMap_chunks
    (oracle : List Paper → Except Str Str) (bs : Nat) (hbs : 0 < bs) :
    ∀ n (papers : List Paper), papers.length ≤ n →
      LLMFilter.scorePapers oracle bs papers =
        (LLMFilter.pyChunks bs papers).flatMap (LLMFilter.scoreBatch oracle) := by
  intro n
  induction n with
  | zero =>
    intro papers h
    have hp : papers = [] := List.eq_nil_of_length_eq_zero (Nat.le_zero.mp h)
    subst hp
    rw [LLMFilter.scorePapers, LLMFilter.pyChunks]
    simp
  | succ n ih =>
    intro papers h
    by_cases hp : papers = []
    · subst hp
      rw [LLMFilter.scorePapers, LLMFilter.pyChunks]
      simp
    · have hcond : ¬(bs = 0 ∨ papers = []) := by
        rintro (h0 | h0)
        · omega
        · exact hp h0
      rw [LLMFilter.scorePapers, LLMFilter.pyChunks]
      rw [dif_neg hcond, dif_neg hcond]
      rw [List.flatMap_cons]
      rw [ih (papers.drop bs) ?hlen]
      case hlen =>
        have h0 : 0 < papers.length := List.length_pos.mpr hp
        simp only [List.length_drop]
        omega

/-- Claim C5: batch scoring is total and failure is isolated per
batch: an oracle failure on a batch gives every paper of that batch a
default result with score 50 and an explanation embedding the error
text; `score_papers` is the concatenation of the independent per-batch
results, each depending only on the oracle's behaviour on its own
batch; and when a response comes back but every parsing strategy
fails, every paper of the batch gets score 50 with the designated
`Unable to parse LLM response` sentinel explanation. -/
theorem batch_failure_isolation
    (oracle : List Paper → Except Str Str) (papers batch : List Paper)
    (e : Str) (bs : Nat) (content : Str) :
    (oracle batch = Except.error e →
      LLMFilter.scoreBatch oracle batch =
        batch.map (fun p => ⟨50, LLMFilter.errorMsgHead ++ e, p⟩)) ∧
    (0 < bs →
      LLMFilter.scorePapers oracle bs papers =
        (LLMFilter.pyChunks bs papers).flatMap (LLMFilter.scoreBatch oracle)) ∧
    (∀ oracle2 : List Paper → Except Str Str, oracle2 batch = oracle batch →
      LLMFilter.scoreBatch oracle2 batch = LLMFilter.scoreBatch oracle batch) ∧
    (LLMFilter.arrayStage (LLMFilter.stripCodeBlock content) papers =
        LLMFilter.StageOut.fallth [] →
     LLMFilter.objectsStage (LLMFilter.stripCodeBlock content) papers [] =
        Sum.inr [] →
     LLMFilter.regexStage content papers [] = none →
      LLMFilter.parseBatchResponse content papers =
        Except.ok (papers.map (fun p => ⟨50, LLMFilter.unableMsg, p⟩))) := by
  refine ⟨?_, ?_, ?_, ?_⟩
  · intro h
    unfold LLMFilter.scoreBatch
    rw [h]
  · intro hbs
    exact scorePapers_eq_flatMap_chunks oracle bs hbs papers.length papers le_rfl
  · intro oracle2 h
    unfold LLMFilter.scoreBatch
    rw [h]
  · intro h1 h2 h3
    unfold LLMFilter.parseBatchResponse
    dsimp only
    rw [h1]
    dsimp only
    rw [h2]
    dsimp only
    rw [h3]

/-- Witness for claim C5: a failing oracle on a one-paper batch yields
the default error result, a prose response with no parseable score
yields the unparseable sentinel, and `score_papers` agrees with the
per-batch decomposition. -/
theorem batch_failure_isolation_witness :
    LLMFilter.scoreBatch oracleFailW [pA] =
      [⟨50, LLMFilter.errorMsgHead ++ ("boom").toList, pA⟩] ∧
    LLMFilter.parseBatchResponse (("no scores here").toList) [pA] =
      Except.ok [⟨50, LLMFilter.unableMsg, pA⟩] ∧
    LLMFilter.scorePapers oracleFailW 5 [pA] =
      (LLMFilter.pyChunks 5 [pA]).flatMap (LLMFilter.scoreBatch oracleFailW) := by
  have h := batch_failure_isolation oracleFailW [pA] [pA]
    (("boom").toList) 5 (("no scores here").toList)
  exact ⟨h.1 rfl, h.2.2.2 (by decide) (by decide) (by decide),
    h.2.1 (by decide)⟩

open BooleanQueryParser in
/-- Routing one term through `addTerm` grows the state's term count by
exactly one (supporting lemma for claim C8). -/
theorem stTotal_addTerm (st : PQState) (x : Str) :
    stTotal (addTerm st x) = stTotal st + 1 := by
  unfold addTerm stTotal
  split_ifs <;> simp <;> omega

open BooleanQueryParser in
/-- The parsing loop's term accounting: the final query holds the
state's terms, plus one term per non-operator non-placeholder token,
plus one per placeholder token that still has a quoted phrase to
consume (supporting lemma for claim C8). -/
theorem parseLoop_total (ts : List Str) : ∀ (phrases : List Str) (st : PQState),
    pqTotal (parseLoop ts phrases st) =
      stTotal st +
        ((ts.filter (fun t => !isOpTok t && !(t == phraseTok))).length) +
        min ((ts.filter (fun t => t == phraseTok)).length) phrases.length := by
  induction ts with
  | nil =>
    intro phrases st
    simp [parseLoop, pqTotal, stTotal]
    omega
  | cons t ts ih =>
    intro phrases st
    by_cases h1 : t = notTok
    · subst h1
      have hstep : parseLoop (notTok :: ts) phrases st =
          parseLoop ts phrases { st with nextIsNot := true } := by
        simp [parseLoop]
      rw [hstep, ih]
      have hf1 : (notTok :: ts).filter (fun t => !isOpTok t && !(t == phraseTok)) =
          ts.filter (fun t => !isOpTok t && !(t == phraseTok)) := by
        (simp [List.filter_cons]; decide)
      have hf2 : (notTok :: ts).filter (fun t => t == phraseTok) =
          ts.filter (fun t => t == phraseTok) := by
        (simp [List.filter_cons]; decide)
      rw [hf1, hf2]
      simp [stTotal]
    · by_cases h2 : t = orTok
      · subst h2
        have hf1 : (orTok :: ts).filter (fun t => !isOpTok t && !(t == phraseTok)) =
            ts.filter (fun t => !isOpTok t && !(t == phraseTok)) := by
          (simp [List.filter_cons]; decide)
        have hf2 : (orTok :: ts).filter (fun t => t == phraseTok) =
            ts.filter (fun t => t == phraseTok) := by
          (simp [List.filter_cons]; decide)
        by_cases hc : (!st.must.isEmpty && st.orTerms.isEmpty) = true
        · have hstep : parseLoop (orTok :: ts) phrases st =
              parseLoop ts phrases
                { st with inOrChain := true, must := st.must.dropLast,
                          orTerms := st.orTerms ++ [st.must.getLastD []] } := by
            simp [parseLoop, hc, show orTok ≠ notTok by decide]
          rw [hstep, ih, hf1, hf2]
          have hmust : st.must ≠ [] := by
            simp only [Bool.and_eq_true, Bool.not_eq_true',
              List.isEmpty_eq_false] at hc
            exact hc.1
          have hlen : 0 < st.must.length := List.length_pos.mpr hmust
          simp [stTotal, List.length_dropLast]
          omega
        · have hstep : parseLoop (orTok :: ts) phrases st =
              parseLoop ts phrases { st with inOrChain := true } := by
            simp [parseLoop, hc, show orTok ≠ notTok by decide]
          rw [hstep, ih, hf1, hf2]
          simp [stTotal]
      · by_cases h3 : t = andTok
        · subst h3
          have hf1 : (andTok :: ts).filter (fun t => !isOpTok t && !(t == phraseTok)) =
              ts.filter (fun t => !isOpTok t && !(t == phraseTok)) := by
            (simp [List.filter_cons]; decide)
          have hf2 : (andTok :: ts).filter (fun t => t == phraseTok) =
              ts.filter (fun t => t == phraseTok) := by
            (simp [List.filter_cons]; decide)
          by_cases hc : (!st.orTerms.isEmpty) = true
          · have hstep : parseLoop (andTok :: ts) phrases st =
                parseLoop ts phrases
                  { st with should := st.should ++ st.orTerms, orTerms := [],
                            inOrChain := false } := by
              simp [parseLoop, hc, show andTok ≠ notTok by decide,
                show andTok ≠ orTok by decide]
            rw [hstep, ih, hf1, hf2]
            simp [stTotal]
            omega
          · have hstep : parseLoop (andTok :: ts) phrases st =
                parseLoop ts phrases { st with inOrChain := false } := by
              simp [parseLoop, hc, show andTok ≠ notTok by decide,
                show andTok ≠ orTok by decide]
            rw [hstep, ih, hf1, hf2]
            simp [stTotal]
        · by_cases h4 : t = phraseTok
          · subst h4
            have hf1 : (phraseTok :: ts).filter (fun t => !isOpTok t && !(t == phraseTok)) =
                ts.filter (fun t => !isOpTok t && !(t == phraseTok)) := by
              simp [List.filter_cons]
            have hf2 : (phraseTok :: ts).filter (fun t => t == phraseTok) =
                phraseTok :: ts.filter (fun t => t == phraseTok) := by
              simp [List.filter_cons]
            match phrases with
            | [] =>
              have hstep : parseLoop (phraseTok :: ts) [] st =
                  parseLoop ts [] st := by
                simp [parseLoop, show phraseTok ≠ notTok by decide,
                  show phraseTok ≠ orTok by decide, show phraseTok ≠ andTok by decide]
              rw [hstep, ih, hf1, hf2]
              simp
            | p :: ps =>
              have hstep : parseLoop (phraseTok :: ts) (p :: ps) st =
                  parseLoop ts ps (addTerm st (pyLower p)) := by
                simp [parseLoop, show phraseTok ≠ notTok by decide,
                  show phraseTok ≠ orTok by decide, show phraseTok ≠ andTok by decide]
              rw [hstep, ih, hf1, hf2]
              rw [stTotal_addTerm]
              simp only [List.length_cons, List.length]
              rw [Nat.succ_min_succ]
              omega
          · have hop : isOpTok t = false := by
              unfold isOpTok
              simp [h1, h2, h3]
            have hf1 : (t :: ts).filter (fun t => !isOpTok t && !(t == phraseTok)) =
                t :: ts.filter (fun t => !isOpTok t && !(t == phraseTok)) := by
              simp [List.filter_cons, hop, h4]
            have hf2 : (t :: ts).filter (fun t => t == phraseTok) =
                ts.filter (fun t => t == phraseTok) := by
              simp [List.filter_cons, h4]
            have hstep : parseLoop (t :: ts) phrases st =
                parseLoop ts phrases (addTerm st (pyLower t)) := by
              simp [parseLoop, h1, h2, h3, h4]
            rw [hstep, ih, hf1, hf2]
            rw [stTotal_addTerm]
            simp only [List.length_cons]
            omega

open BooleanQueryParser in
/-- Claim C8, amended: every token of the input ends up in exactly one
of the three sets or is consumed as an operator keyword, *except* that
a literal `PHRASE` token in excess of the number of quoted phrases is
silently dropped: the total number of emitted terms equals the number
of non-operator, non-`PHRASE` tokens plus the number of `PHRASE`
tokens served by a quoted phrase. -/
theorem parse_token_accounting (q : Str) :
    pqTotal (parse q) =
      ((tokensOf q).filter (fun t => !isOpTok t && !(t == phraseTok))).length +
        min ((tokensOf q).filter (fun t => t == phraseTok)).length
          (phrasesOf q).length := by
  unfold parse
  rw [parseLoop_total]
  simp [stTotal]

open BooleanQueryParser in
/-- Witness for claim C8: the accounting evaluated on a concrete
query. -/
theorem parse_token_accounting_witness :
    pqTotal (parse (("deep AND learning").toList)) = 2 ∧
    pqTotal (parse (("deep AND learning").toList)) =
      ((tokensOf (("deep AND learning").toList)).filter
          (fun t => !isOpTok t && !(t == phraseTok))).length +
        min ((tokensOf (("deep AND learning").toList)).filter
            (fun t => t == phraseTok)).length
          (phrasesOf (("deep AND learning").toList)).length :=
  ⟨by decide, parse_token_accounting (("deep AND learning").toList)⟩

/-- Claim C9, amended: for every call of `SearchEngine.search` with a
non-empty candidate list, the record passed to the history store holds
the query, the serialized filters, the count of the returned results
and the requester identity; and the returned result list is the same
whatever the history store does — a failing store cannot fail the
search or change its results. -/
theorem search_records_history
    (save save2 : SearchEngine.SearchQueryRec → Except Str Nat)
    (sem : Option (Str → List Paper → List Paper)) (query : Str)
    (papers : List Paper) (filters : Option SearchEngine.SearchFilters)
    (useSemantic : Bool) (userId : Option Str) (hp : papers ≠ []) :
    (SearchEngine.search save sem query papers filters useSemantic
        userId).results =
      SearchEngine.searchResults sem query papers filters useSemantic ∧
    (SearchEngine.search save sem query papers filters useSemantic
        userId).results =
      (SearchEngine.search save2 sem query papers filters useSemantic
        userId).results ∧
    (SearchEngine.search save sem query papers filters useSemantic
        userId).attempted =
      some ⟨query, filters,
        (SearchEngine.search save sem query papers filters useSemantic
          userId).results.length, userId⟩ := by
  have hne : papers.isEmpty = false := by simpa [List.isEmpty_iff] using hp
  unfold SearchEngine.search
  rw [if_neg (by simp [hne]), if_neg (by simp [hne])]
  dsimp only
  cases save ⟨query, filters,
      (SearchEngine.searchResults sem query papers filters useSemantic).length,
      userId⟩ <;>
    cases save2 ⟨query, filters,
        (SearchEngine.searchResults sem query papers filters useSemantic).length,
        userId⟩ <;>
      exact ⟨rfl, rfl, rfl⟩

theorem search_records_history_witness :
    (SearchEngine.search saveFailW none qW [pA] none true none).results =
      (SearchEngine.search saveOkW none qW [pA] none true none).results ∧
    (SearchEngine.search saveFailW none qW [pA] none true none).attempted =
      some ⟨qW, none,
        (SearchEngine.search saveFailW none qW [pA] none true
          none).results.length, none⟩ := by
  have h := search_records_history saveFailW saveOkW none qW [pA] none true
    none (by decide)
  exact ⟨h.2.1, h.2.2⟩
